import Mathlib

/-!
Shallow embedding of the smapp `TransactionManager` (main/TransactionManager.ts)
together with the slice of its collaborators that the specification's claims
talk about.

Modelling conventions:
* JS objects whose fields may be absent or `undefined` are structures of
  `Option` fields (`none` = absent/undefined; the two are conflated, which is
  the usual shallow treatment of the spread operator).
* JS relational comparison on possibly-undefined numbers is `jsGT`
  (`undefined > x` and `x > undefined` are `false` in JS).
* A thrown `TypeError` (a property access on `undefined`) is
  `Except.error JsError.typeError`; the throw happens before any store
  mutation or UI send in every modelled function, matching the source order.
* UI pushes through the `BrowserWindow` boundary are `Notif` values collected
  in a list.
-/

namespace Smapp

/-- Modelled from the spec: numeric transaction-status codes (the `TxState`
enum of shared/types, which is not under src/), ordered
pending < processed < terminal (success/failure/invalid) as §3 requires and as
the source's comparisons against `TxState.PROCESSED` presuppose. -/
def TxState.UNSPECIFIED : Nat := 0

def TxState.MEMPOOL : Nat := 4

def TxState.MESH : Nat := 5

def TxState.PROCESSED : Nat := 6

def TxState.SUCCESS : Nat := 7

def TxState.FAILURE : Nat := 8

def TxState.INVALID : Nat := 9

/-- JS `a > b` on possibly-undefined numbers: false whenever a side is
undefined. -/
def jsGT : Option Nat → Option Nat → Bool
  | some a, some b => decide (b < a)
  | _, _ => false

/-- JS object spread on one field: the incoming (second spread) value wins
whenever it is present. -/
def jsOr {α : Type} : Option α → Option α → Option α
  | some a, _ => some a
  | none, b => b

/-- Transaction receipt, a bag of optional fields merged additively. -/
structure TxReceipt where
  result : Option Nat
  gasUsed : Option Nat
  fee : Option Nat
deriving DecidableEq

structure TxGas where
  gasPrice : Option Nat
  maxGas : Option Nat
  fee : Option Nat
deriving DecidableEq

structure TxMeta where
  templateName : Option String
  methodName : Option String
deriving DecidableEq

/-- A (possibly partial) transaction record as handled by
`TransactionManager`: the fields that part_002 reads or writes. -/
structure Tx where
  id : Option String
  status : Option Nat
  layer : Option Nat
  note : Option String
  receipt : Option TxReceipt
  template : Option String
  method : Option Nat
  principal : Option String
  gas : Option TxGas
  meta : Option TxMeta
  payload : Option String
deriving DecidableEq

/-- The record with every field absent (`{}` / spread of `undefined`). -/
def emptyTx : Tx :=
  ⟨none, none, none, none, none, none, none, none, none, none, none⟩

/-- `{...originalTx?.receipt, ...tx.receipt}` (line 276 of part_002). -/
def mergeReceipt (original : Option TxReceipt) (incoming : TxReceipt) : TxReceipt :=
  let o := original.getD ⟨none, none, none⟩
  { result := jsOr incoming.result o.result
    gasUsed := jsOr incoming.gasUsed o.gasUsed
    fee := jsOr incoming.fee o.fee }

/-- Status rule of `upsertTransaction` (lines 278-285): keep the existing
status only when it is strictly above `PROCESSED` and strictly above the
incoming one; JS comparisons on undefined are false. -/
def mergedStatus (original incoming : Option Nat) : Option Nat :=
  if jsGT original (some TxState.PROCESSED) = true ∧ jsGT original incoming = true
  then original else incoming

/-- The merge of `upsertTransaction` (lines 274-286 of part_002):
`{ ...originalTx, ...tx, status, receipt }` with the status-monotonicity rule
and the additive receipt merge. -/
def upsertMerge (originalTx : Option Tx) (tx : Tx) : Tx :=
  let receipt : Option TxReceipt :=
    match tx.receipt with
    | some r => some (mergeReceipt (originalTx.bind Tx.receipt) r)
    | none => originalTx.bind Tx.receipt
  { id := jsOr tx.id (originalTx.bind Tx.id)
    status := mergedStatus (originalTx.bind Tx.status) tx.status
    layer := jsOr tx.layer (originalTx.bind Tx.layer)
    note := jsOr tx.note (originalTx.bind Tx.note)
    receipt := receipt
    template := jsOr tx.template (originalTx.bind Tx.template)
    method := jsOr tx.method (originalTx.bind Tx.method)
    principal := jsOr tx.principal (originalTx.bind Tx.principal)
    gas := jsOr tx.gas (originalTx.bind Tx.gas)
    meta := jsOr tx.meta (originalTx.bind Tx.meta)
    payload := jsOr tx.payload (originalTx.bind Tx.payload) }

/-- The per-account transaction ledger: an id-keyed association list (a JS
object keyed by `tx.id`; the key is `none` when `tx.id` is undefined). -/
abbrev TxStore := List (Option String × Tx)

/-- Modelled from the spec: `AccountState.getTxById` (§4.1, main/AccountState.ts
is not under src/) returns the stored record for an id, or none. -/
def getTxById (txs : TxStore) (txId : Option String) : Option Tx :=
  (txs.find? (fun p => decide (p.1 = txId))).map Prod.snd

/-- Modelled from the spec: `AccountState.storeTransaction` (§4.1,
main/AccountState.ts is not under src/) persists insert-or-update, keyed by
the record's id, keeping insertion order stable. -/
def storeTransaction (txs : TxStore) (tx : Tx) : TxStore :=
  match txs with
  | [] => [(tx.id, tx)]
  | p :: rest =>
      if p.1 = tx.id then (tx.id, tx) :: rest
      else p :: storeTransaction rest tx

/-- The store-level effect of `upsertTransaction` when the account's store
exists: look the record up by the incoming id, merge, store. -/
def upsertTxs (txs : TxStore) (tx : Tx) : TxStore :=
  storeTransaction txs (upsertMerge (getTxById txs tx.id) tx)

/-- Reward record as parsed by `addReward` (lines 385-394). -/
structure Reward where
  layer : Nat
  amount : Nat
  layerReward : Nat
  coinbase : String
deriving DecidableEq

structure BalanceSnapshot where
  counter : Nat
  balance : Nat
deriving DecidableEq

structure AccountSnapshot where
  currentState : BalanceSnapshot
  projectedState : BalanceSnapshot
deriving DecidableEq

/-- One account's `AccountStateManager` contents: transaction ledger, reward
ledger, and the balance/nonce snapshot. -/
structure AccountStore where
  txs : TxStore
  rewards : List Reward
  state : Option AccountSnapshot
deriving DecidableEq

/-- Events pushed to the UI boundary (`mainWindow.webContents.send`). -/
inductive Notif where
  | accountUpdated (accountId : String)
  | txsUpdated (publicKey : String)
  | rewardsUpdated (publicKey : String)
deriving DecidableEq

/-- A JS runtime error: the only kind the modelled paths can raise is a
`TypeError` from a property access on `undefined`. -/
inductive JsError where
  | typeError
deriving DecidableEq

/-- `updateAppStateTxs` (lines 116-119): reads `accountStates[publicKey].getTxs()`
first — a `TypeError` when the store was removed — then sends `txs-updated`. -/
def updateAppStateTxs (store : Option AccountStore) (publicKey : String) :
    Except JsError (List Notif) :=
  match store with
  | none => .error .typeError
  | some _ => .ok [Notif.txsUpdated publicKey]

/-- `updateAppStateRewards` (lines 121-124), same shape. -/
def updateAppStateRewards (store : Option AccountStore) (publicKey : String) :
    Except JsError (List Notif) :=
  match store with
  | none => .error .typeError
  | some _ => .ok [Notif.rewardsUpdated publicKey]

/-- `upsertTransaction` (lines 270-289): bail out when the account's store no
longer exists; otherwise merge, store via `storeTx` (which then sends the
`txs-updated` notification) and schedule the debounced resubscription. -/
def upsertTransaction (store : Option AccountStore) (publicKey : String) (tx : Tx) :
    Option AccountStore × List Notif :=
  match store with
  | none => (none, [])
  | some s => (some { s with txs := upsertTxs s.txs tx }, [Notif.txsUpdated publicKey])

/-- `updateTxNote` (lines 637-648): look up the record (a `TypeError` when the
account's store is missing), spread it under the new note and push the result
through `upsertTransaction`. -/
def updateTxNote (store : Option AccountStore) (publicKey : String)
    (txId : String) (note : String) :
    Except JsError (Option AccountStore × List Notif) :=
  match store with
  | none => .error .typeError
  | some s =>
      let tx := getTxById s.txs (some txId)
      let upd : Tx :=
        match tx with
        | none => { emptyTx with note := some note }
        | some t => { t with note := some note }
      .ok (upsertTransaction store publicKey upd)

/-- `storeReward` (lines 135-142): `accountStates[publicKey].storeReward(...)`
carries no existence check, so a removed store raises a `TypeError` before any
mutation; on success the reward is appended and `rewards-updated` sent. -/
def storeReward (store : Option AccountStore) (publicKey : String) (reward : Reward) :
    Except JsError (Option AccountStore × List Notif) :=
  match store with
  | none => .error .typeError
  | some s =>
      .ok (some { s with rewards := s.rewards ++ [reward] },
           [Notif.rewardsUpdated publicKey])

/-- Wire reward message (`Reward__Output`): every field optional. -/
structure RewardMsg where
  layer : Option Nat
  total : Option Nat
  layerReward : Option Nat
  coinbase : Option String
deriving DecidableEq

/-- Modelled from the spec: `hasRequiredRewardFields` (shared/types/guards,
not under src/) checks that the layer, total, layerReward and coinbase fields
are all present. -/
def hasRequiredRewardFields (r : RewardMsg) : Bool :=
  r.layer.isSome && r.total.isSome && r.layerReward.isSome && r.coinbase.isSome

/-- `addReward` (lines 385-394): drop malformed reward payloads, parse the
rest and hand them to `storeReward`. -/
def addReward (store : Option AccountStore) (accountId : String)
    (reward : Option RewardMsg) :
    Except JsError (Option AccountStore × List Notif) :=
  match reward with
  | none => .ok (store, [])
  | some r =>
      if hasRequiredRewardFields r then
        storeReward store accountId
          ⟨r.layer.getD 0, r.total.getD 0, r.layerReward.getD 0, r.coinbase.getD ""⟩
      else .ok (store, [])

/-- Wire account-state message (`Account__Output` innards): optional
counter/balance. -/
structure AccountStateMsg where
  counter : Option Nat
  balance : Option Nat
deriving DecidableEq

structure AccountMsg where
  stateCurrent : Option AccountStateMsg
  stateProjected : Option AccountStateMsg
deriving DecidableEq

/-- `updateAccountData` (lines 339-356): bail out when the store no longer
exists, otherwise replace the snapshot and send `account-updated` (via
`updateAppStateAccount`, whose `getState()` now returns the snapshot just
stored). -/
def updateAccountData (store : Option AccountStore) (address : String)
    (data : AccountMsg) : Option AccountStore × List Notif :=
  match store with
  | none => (none, [])
  | some s =>
      let currentState : BalanceSnapshot :=
        ⟨(data.stateCurrent.bind AccountStateMsg.counter).getD 0,
         (data.stateCurrent.bind AccountStateMsg.balance).getD 0⟩
      let projectedState : BalanceSnapshot :=
        ⟨(data.stateProjected.bind AccountStateMsg.counter).getD 0,
         (data.stateProjected.bind AccountStateMsg.balance).getD 0⟩
      (some { s with state := some ⟨currentState, projectedState⟩ },
       [Notif.accountUpdated address])

/-- Wire transaction message (`Transaction__Output`): the fields part_002
inspects. -/
structure TransactionMsg where
  id : Option String
  principal : Option String
deriving DecidableEq

/-- Modelled from the spec: `toTxState` (shared/types, not under src/) maps the
wire status enum onto the local one preserving the
pending < processed < terminal order; modelled as the identity on codes. -/
def toTxState (state : Nat) : Nat := state

/-- Modelled from the spec: `toTx` (main/transformers.ts, not under src/)
builds a local record from a wire transaction; per §4.2 an incoming record
missing its transaction id is discarded (none). -/
def toTx (t : TransactionMsg) (status : Option Nat) : Option Tx :=
  match t.id with
  | none => none
  | some i => some { emptyTx with id := some i, status := status, principal := t.principal }

structure TransactionStateMsg where
  state : Option Nat
deriving DecidableEq

/-- Payload of the transaction-status stream (`handleNewTx`'s argument). -/
structure TxStreamItem where
  transaction : Option TransactionMsg
  transactionState : Option TransactionStateMsg
deriving DecidableEq

/-- `handleNewTx` (lines 144-153): guard the payload (a missing or zero status
enum is falsy in JS), convert, and upsert. -/
def handleNewTx (store : Option AccountStore) (publicKey : String)
    (item : TxStreamItem) : Option AccountStore × List Notif :=
  match item.transaction, item.transactionState with
  | some t, some ts =>
      match ts.state with
      | none => (store, [])
      | some st =>
          if st = 0 then (store, [])
          else
            match toTx t (some (toTxState st)) with
            | none => (store, [])
            | some newTx => upsertTransaction store publicKey newTx
  | _, _ => (store, [])

structure LayerMsg where
  number : Option Nat
deriving DecidableEq

/-- Payload of the mesh transaction stream (`MeshTransaction__Output`). -/
structure MeshTxMsg where
  transaction : Option TransactionMsg
  layerId : Option LayerMsg
deriving DecidableEq

/-- `upsertTransactionFromMesh` (lines 291-301): drop payloads missing the
transaction, its id or the layer; spread the layer number in only when truthy
(nonzero). -/
def upsertTransactionFromMesh (store : Option AccountStore) (accountAddress : String)
    (item : Option MeshTxMsg) : Option AccountStore × List Notif :=
  match item with
  | none => (store, [])
  | some m =>
      match m.transaction with
      | none => (store, [])
      | some t =>
          if t.id.isNone then (store, [])
          else
            match m.layerId with
            | none => (store, [])
            | some lay =>
                match toTx t none with
                | none => (store, [])
                | some newTxData =>
                    let withLayer : Tx :=
                      match lay.number with
                      | some n =>
                          if n = 0 then newTxData
                          else { newTxData with layer := some n }
                      | none => newTxData
                    upsertTransaction store accountAddress withLayer

/-- Payload of `watchTransactionsByAddress` (lines 205-214). -/
structure WatchTxItem where
  tx : Option TransactionMsg
  status : Option Nat
  layer : Option Nat
deriving DecidableEq

/-- The `watchTransactionsByAddress` callback (lines 205-214): a present
transaction is converted with a PROCESSED state and upserted with the
reported layer spread over it. -/
def handleWatchTx (store : Option AccountStore) (address : String)
    (item : WatchTxItem) : Option AccountStore × List Notif :=
  match item.tx with
  | none => (store, [])
  | some t =>
      match toTx t (some TxState.PROCESSED) with
      | none => (store, [])
      | some tx => upsertTransaction store address { tx with layer := item.layer }

/-- Body of the debounced `subscribeTransactions` (lines 155-167): reads
`accountStates[publicKey].getTxs()` — a `TypeError` once the store is removed —
then only re-subscribes; it never sends a UI notification. -/
def subscribeTransactionsBody (store : Option AccountStore) : Except JsError Unit :=
  match store with
  | none => .error .typeError
  | some _ => .ok ()

/-- The callback entry points of `TransactionManager` that can still run for
an account after `setAccounts` removed it: live-stream items (the tx-state
stream is not cancelled by `unsubscribeAllStreams`), the pending debounced
resubscription, and continuations of in-flight backfill or store promises. -/
inductive TMEvent where
  | txStreamItem (item : TxStreamItem)
  | meshTxItem (item : Option MeshTxMsg)
  | watchTxItem (item : WatchTxItem)
  | debouncedResubscribe
  | storeTxContinuation
  | accountDataItem (data : AccountMsg)
  | rewardItem (reward : Option RewardMsg)
  | storeRewardContinuation

/-- Dispatch one post-removal event against the (possibly removed) account
store, collecting the UI notifications it sends. -/
def handleEvent (store : Option AccountStore) (publicKey : String) :
    TMEvent → Except JsError (Option AccountStore × List Notif)
  | .txStreamItem item => .ok (handleNewTx store publicKey item)
  | .meshTxItem item => .ok (upsertTransactionFromMesh store publicKey item)
  | .watchTxItem item => .ok (handleWatchTx store publicKey item)
  | .debouncedResubscribe => (subscribeTransactionsBody store).map fun _ => (store, [])
  | .storeTxContinuation => (updateAppStateTxs store publicKey).map fun ns => (store, ns)
  | .accountDataItem data => .ok (updateAccountData store publicKey data)
  | .rewardItem reward => addReward store publicKey reward
  | .storeRewardContinuation =>
      (updateAppStateRewards store publicKey).map fun ns => (store, ns)

/-- The notifications an event handler actually pushed to the UI: a thrown
`TypeError` aborts before any send. -/
def emittedNotifs : Except JsError (Option AccountStore × List Notif) → List Notif
  | .error _ => []
  | .ok (_, ns) => ns

structure KeyPair where
  publicKey : String
  secretKey : String
deriving DecidableEq

/-- The keychain update of `addAccount` (lines 241-249 of part_002): when the
public key is already present at index `idx`, the source keeps
`slice(0, Math.max(0, idx - 1))` concatenated with `slice(idx + 1)` and
appends the new keypair (truncated `Nat` subtraction is exactly
`Math.max(0, idx - 1)`). -/
def addAccountKeychain (keychain : List KeyPair) (keypair : KeyPair) : List KeyPair :=
  match keychain.findIdx? (fun kp => kp.publicKey == keypair.publicKey) with
  | some idx => (keychain.take (idx - 1) ++ keychain.drop (idx + 1)) ++ [keypair]
  | none => keychain ++ [keypair]

/-- One response of `meshService.requestMeshTransactions` (records are drawn
from `Nat` for concreteness). -/
structure MeshResult where
  data : List Nat
  totalResults : Nat
  error : Bool
deriving DecidableEq

/-- Observable behaviour of one pagination walk: every `(offset, retries)`
request issued, in order, and every record delivered to the handler, in
order. Deliveries are append-only — the model has no way to roll them back,
matching the source. -/
structure FetchTrace where
  requests : List (Nat × Nat)
  delivered : List Nat
deriving DecidableEq

/-- `retrieveHistoricTxData` (lines 303-337): query the current offset; on an
error with retry budget left, retry the same offset with `retries + 1`;
otherwise deliver the page's records to the handler and continue at
`offset + batch` (with the budget reset) while `offset + batch < totalResults`.
The environment `env offset retries` gives the response of the query issued at
`offset` on attempt number `retries`; `GRPC_QUERY_BATCH_SIZE` (a constant
defined outside src/) is the `batch` parameter. The walk is fueled because
nothing in the source bounds `totalResults` across responses; `none` means the
fuel ran out before the walk finished. -/
def retrieveHistoricTxData (batch : Nat) (env : Nat → Nat → MeshResult) :
    Nat → Nat → Nat → Option FetchTrace
  | 0, _, _ => none
  | fuel + 1, offset, retries =>
      let r := env offset retries
      if r.error = true ∧ retries < 5 then
        (retrieveHistoricTxData batch env fuel offset (retries + 1)).map
          fun t => ⟨(offset, retries) :: t.requests, t.delivered⟩
      else if offset + batch < r.totalResults then
        (retrieveHistoricTxData batch env fuel (offset + batch) 0).map
          fun t => ⟨(offset, retries) :: t.requests, r.data ++ t.delivered⟩
      else some ⟨[(offset, retries)], r.data⟩

/-- The environment of claim C4: 250 total results in pages of 100 at offsets
0, 100, 200, where the query at offset 100 fails on its first two attempts
and succeeds on the third. -/
def c4Env : Nat → Nat → MeshResult := fun offset attempt =>
  if offset = 0 then ⟨List.range' 0 100, 250, false⟩
  else if offset = 100 then
    (if attempt < 2 then ⟨[], 0, true⟩ else ⟨List.range' 100 100, 250, false⟩)
  else if offset = 200 then ⟨List.range' 200 50, 250, false⟩
  else ⟨[], 0, true⟩

/-- The environment of claim C5's witness: one successful page at offset 0,
then a permanently failing query at offset 100. -/
def c5Env : Nat → Nat → MeshResult := fun offset _ =>
  if offset = 0 then ⟨List.range' 0 100, 250, false⟩
  else ⟨[], 0, true⟩

/-- Wire `txstate.id` of `submitTransaction`'s response (the id digest is kept
as its hex string; encoding is out of scope per §1). -/
structure TxIdMsg where
  id : Option String
deriving DecidableEq

structure TxStateMsg where
  id : Option TxIdMsg
  state : Option Nat
deriving DecidableEq

/-- `submitTransaction` response: `{error, txstate}`. -/
structure SubmitResponse where
  error : Option String
  txstate : Option TxStateMsg
deriving DecidableEq

/-- `response.txstate.id?.id` with optional chaining. -/
def txstateIdId (r : SubmitResponse) : Option String :=
  (r.txstate.bind TxStateMsg.id).bind TxIdMsg.id

/-- The synthetic submission error of lines 482-483 and 572-573. -/
def getTxResponseError : String := "Can not retrieve a transaction data"

/-- `error` ternary shared by both publish paths (lines 486-489 / 576-579):
set when the remote rejected, returned no txstate, or no transaction id. -/
def publishError (response : SubmitResponse) : Option String :=
  if response.error.isSome || response.txstate.isNone || (txstateIdId response).isNone
  then some (response.error.getD getTxResponseError)
  else none

/-- Modelled from the spec: the gas cap constant `MAX_GAS`
(shared/constants, not under src/); its value is irrelevant to the claims. -/
def MAX_GAS : Nat := 500

/-- Result value of the publish operations: `{error, tx}`. -/
structure PublishResult where
  error : Option String
  tx : Option Tx
deriving DecidableEq

/-- `publishSelfSpawn` (lines 458-535) from the submission response onward:
compute `{error, tx}` by the source's ternaries and reconcile the optimistic
record into the store only when `tx` is non-null. Payload encoding, signing
and template metadata happen before the response or outside src/ and do not
affect the result shape, so the composed fields not reconstructible from
part_002 are left absent. -/
def publishSelfSpawn (response : SubmitResponse) (currentLayer : Nat) (fee : Nat)
    (address : String) (templateAddress : String) (store : Option AccountStore) :
    PublishResult × (Option AccountStore × List Notif) :=
  let error := publishError response
  let tx : Option Tx :=
    match response.error, txstateIdId response with
    | none, some txid =>
        some { id := some txid
               status := (response.txstate.bind TxStateMsg.state).map toTxState
               layer := some currentLayer
               note := none
               receipt := none
               template := some templateAddress
               method := some 0
               principal := some address
               gas := some ⟨some fee, some MAX_GAS, some (fee * MAX_GAS)⟩
               meta := none
               payload := none }
    | _, _ => none
  let after :=
    match tx with
    | some t => upsertTransaction store address t
    | none => (store, [])
  (⟨error, tx⟩, after)

/-- `publishSpendTx` (lines 537-635) from the submission response onward, same
shape as `publishSelfSpawn` with method 1 and the optional note (spread in
only when the note string is truthy, line 610). -/
def publishSpendTx (response : SubmitResponse) (currentLayer : Nat) (fee : Nat)
    (address : String) (templateAddress : String) (note : Option String)
    (store : Option AccountStore) :
    PublishResult × (Option AccountStore × List Notif) :=
  let error := publishError response
  let tx : Option Tx :=
    match response.error, txstateIdId response with
    | none, some txid =>
        some { id := some txid
               status := (response.txstate.bind TxStateMsg.state).map toTxState
               layer := some currentLayer
               note := match note with
                       | some n => if n.isEmpty then none else some n
                       | none => none
               receipt := none
               template := some templateAddress
               method := some 1
               principal := some address
               gas := some ⟨some fee, some MAX_GAS, some (fee * MAX_GAS)⟩
               meta := none
               payload := none }
    | _, _ => none
  let after :=
    match tx with
    | some t => upsertTransaction store address t
    | none => (store, [])
  (⟨error, tx⟩, after)

@[simp] theorem jsOr_some_left {α : Type} (a : α) (b : Option α) :
    jsOr (some a) b = some a := rfl

@[simp] theorem jsOr_none_left {α : Type} (b : Option α) : jsOr none b = b := rfl

@[simp] theorem jsOr_none_right {α : Type} (a : Option α) : jsOr a none = a := by
  cases a <;> rfl

@[simp] theorem jsGT_none_left (b : Option Nat) : jsGT none b = false := rfl

@[simp] theorem jsGT_none_right (a : Option Nat) : jsGT a none = false := by
  cases a <;> rfl

@[simp] theorem jsGT_some_some (a b : Nat) : jsGT (some a) (some b) = decide (b < a) :=
  rfl

theorem mergeReceipt_none (r : TxReceipt) : mergeReceipt none r = r := by
  cases r with
  | mk result gasUsed fee => cases result <;> cases gasUsed <;> cases fee <;> rfl

theorem mergedStatus_none_left (i : Option Nat) : mergedStatus none i = i := by
  simp [mergedStatus]

/-- Merging onto an absent record keeps the incoming record as-is
(§4.2 rule 1). -/
theorem upsertMerge_none (u : Tx) : upsertMerge none u = u := by
  obtain ⟨i, s, l, n, r, t, m, p, g, me, pa⟩ := u
  cases r <;> simp [upsertMerge, mergeReceipt_none, mergedStatus_none_left]

/-- A just-stored record is found again under its own key. -/
theorem getTxById_storeTransaction_self (s : TxStore) (t : Tx) :
    getTxById (storeTransaction s t) t.id = some t := by
  induction s with
  | nil => simp [storeTransaction, getTxById]
  | cons p rest ih =>
      by_cases h : p.1 = t.id
      · simp [storeTransaction, h, getTxById]
      · simp [storeTransaction, h, getTxById, List.find?] at ih ⊢
        exact ih

/-- Storing twice under the same key collapses to the last store. -/
theorem storeTransaction_overwrite (s : TxStore) (t1 t2 : Tx)
    (h : t1.id = t2.id) :
    storeTransaction (storeTransaction s t1) t2 = storeTransaction s t2 := by
  induction s with
  | nil => simp [storeTransaction, h]
  | cons p rest ih =>
      by_cases hp : p.1 = t1.id
      · simp [storeTransaction, hp, h ▸ hp, h]
      · have hp2 : ¬p.1 = t2.id := fun hc => hp (hc.trans h.symm)
        simp [storeTransaction, hp, hp2, ih]

/-- Commutativity of the status rule once both incoming statuses are defined
and at least one is terminal (or they agree), over any base status. -/
theorem mergedStatus_comm (o : Option Nat) (b c : Nat)
    (h : TxState.PROCESSED < b ∨ TxState.PROCESSED < c ∨ b = c) :
    mergedStatus (mergedStatus o (some b)) (some c)
      = mergedStatus (mergedStatus o (some c)) (some b) := by
  have h6 : (6 : Nat) < b ∨ 6 < c ∨ b = c := by
    simpa [TxState.PROCESSED] using h
  rcases o with _ | a <;>
    simp only [mergedStatus, jsGT_none_left, jsGT_some_some, TxState.PROCESSED,
      decide_eq_true_eq] <;>
    split_ifs <;> simp_all <;> omega

/-- Two upserts for the same id that agree on every non-status field reduce to
one overwrite of the doubly-merged record; swapping them only swaps the status
arguments, so the walk commutes exactly when the status rule does. -/
theorem upsertTxs_comm_aux (s : TxStore) (k : String)
    (st1 st2 l : Option Nat) (n : Option String) (r : Option TxReceipt)
    (t : Option String) (m : Option Nat) (p : Option String) (g : Option TxGas)
    (me : Option TxMeta) (pa : Option String)
    (hst : mergedStatus (mergedStatus ((getTxById s (some k)).bind Tx.status) st1) st2
         = mergedStatus (mergedStatus ((getTxById s (some k)).bind Tx.status) st2) st1) :
    upsertTxs (upsertTxs s ⟨some k, st1, l, n, r, t, m, p, g, me, pa⟩)
        ⟨some k, st2, l, n, r, t, m, p, g, me, pa⟩
      = upsertTxs (upsertTxs s ⟨some k, st2, l, n, r, t, m, p, g, me, pa⟩)
        ⟨some k, st1, l, n, r, t, m, p, g, me, pa⟩ := by
  have step : ∀ stA stB : Option Nat,
      upsertTxs (upsertTxs s ⟨some k, stA, l, n, r, t, m, p, g, me, pa⟩)
          ⟨some k, stB, l, n, r, t, m, p, g, me, pa⟩
        = storeTransaction s
            (upsertMerge
              (some (upsertMerge (getTxById s (some k))
                ⟨some k, stA, l, n, r, t, m, p, g, me, pa⟩))
              ⟨some k, stB, l, n, r, t, m, p, g, me, pa⟩) := by
    intro stA stB
    have hM : (upsertMerge (getTxById s (some k))
        ⟨some k, stA, l, n, r, t, m, p, g, me, pa⟩).id = some k := by
      simp [upsertMerge]
    have hM2 : (upsertMerge
        (some (upsertMerge (getTxById s (some k))
          ⟨some k, stA, l, n, r, t, m, p, g, me, pa⟩))
        ⟨some k, stB, l, n, r, t, m, p, g, me, pa⟩).id = some k := by
      simp [upsertMerge]
    have look : getTxById
        (storeTransaction s (upsertMerge (getTxById s (some k))
          ⟨some k, stA, l, n, r, t, m, p, g, me, pa⟩)) (some k)
        = some (upsertMerge (getTxById s (some k))
          ⟨some k, stA, l, n, r, t, m, p, g, me, pa⟩) := by
      have h' := getTxById_storeTransaction_self s
        (upsertMerge (getTxById s (some k))
          ⟨some k, stA, l, n, r, t, m, p, g, me, pa⟩)
      rwa [hM] at h'
    calc upsertTxs (upsertTxs s ⟨some k, stA, l, n, r, t, m, p, g, me, pa⟩)
            ⟨some k, stB, l, n, r, t, m, p, g, me, pa⟩
        = storeTransaction
            (storeTransaction s (upsertMerge (getTxById s (some k))
              ⟨some k, stA, l, n, r, t, m, p, g, me, pa⟩))
            (upsertMerge
              (getTxById (storeTransaction s (upsertMerge (getTxById s (some k))
                ⟨some k, stA, l, n, r, t, m, p, g, me, pa⟩)) (some k))
              ⟨some k, stB, l, n, r, t, m, p, g, me, pa⟩) := rfl
      _ = storeTransaction
            (storeTransaction s (upsertMerge (getTxById s (some k))
              ⟨some k, stA, l, n, r, t, m, p, g, me, pa⟩))
            (upsertMerge
              (some (upsertMerge (getTxById s (some k))
                ⟨some k, stA, l, n, r, t, m, p, g, me, pa⟩))
              ⟨some k, stB, l, n, r, t, m, p, g, me, pa⟩) := by rw [look]
      _ = storeTransaction s
            (upsertMerge
              (some (upsertMerge (getTxById s (some k))
                ⟨some k, stA, l, n, r, t, m, p, g, me, pa⟩))
              ⟨some k, stB, l, n, r, t, m, p, g, me, pa⟩) :=
          storeTransaction_overwrite _ _ _ (hM.trans hM2.symm)
  rw [step st1 st2, step st2 st1]
  congr 1
  cases r <;>
    simp only [upsertMerge, Option.bind] <;>
    congr 1

/-- C1 is refuted: two updates for the same transaction id carrying different
notes (every non-status field is last-writer-wins) produce different final
stored records depending on arrival order. -/
theorem c1_counterexample :
    upsertTxs (upsertTxs []
        { emptyTx with id := some "aa", status := some TxState.MEMPOOL, note := some "x" })
        { emptyTx with id := some "aa", status := some TxState.MEMPOOL, note := some "y" }
      ≠ upsertTxs (upsertTxs []
        { emptyTx with id := some "aa", status := some TxState.MEMPOOL, note := some "y" })
        { emptyTx with id := some "aa", status := some TxState.MEMPOOL, note := some "x" } := by
  decide

/-- C1 (amended): applying two updates with the same transaction id through
`upsertTransaction`'s merge in either order, starting from the same stored
ledger, yields the same final stored record provided the updates agree on
every field other than status, both statuses are defined, and the statuses
are equal or at least one of them is terminal. (As stated the claim fails:
non-status fields are last-writer-wins, and two distinct non-terminal
statuses are also order-dependent.) -/
theorem c1_merge_comm_amended (s : TxStore) (k : String) (b c : Nat)
    (layer : Option Nat) (note : Option String) (receipt : Option TxReceipt)
    (template : Option String) (method : Option Nat) (principal : Option String)
    (gas : Option TxGas) (meta : Option TxMeta) (payload : Option String)
    (hbc : TxState.PROCESSED < b ∨ TxState.PROCESSED < c ∨ b = c) :
    upsertTxs (upsertTxs s
        ⟨some k, some b, layer, note, receipt, template, method, principal, gas, meta, payload⟩)
        ⟨some k, some c, layer, note, receipt, template, method, principal, gas, meta, payload⟩
      = upsertTxs (upsertTxs s
        ⟨some k, some c, layer, note, receipt, template, method, principal, gas, meta, payload⟩)
        ⟨some k, some b, layer, note, receipt, template, method, principal, gas, meta, payload⟩ :=
  upsertTxs_comm_aux s k (some b) (some c) layer note receipt template method
    principal gas meta payload (mergedStatus_comm _ b c hbc)

/-- Witness for the amended C1: two terminal-status updates (SUCCESS then
FAILURE) for the same id commute, evaluated on the empty ledger. -/
theorem c1_merge_comm_amended_witness :
    upsertTxs (upsertTxs []
        ⟨some "aa", some TxState.SUCCESS, none, none, none, none, none, none, none, none, none⟩)
        ⟨some "aa", some TxState.FAILURE, none, none, none, none, none, none, none, none, none⟩
      = upsertTxs (upsertTxs []
        ⟨some "aa", some TxState.FAILURE, none, none, none, none, none, none, none, none, none⟩)
        ⟨some "aa", some TxState.SUCCESS, none, none, none, none, none, none, none, none, none⟩ :=
  c1_merge_comm_amended [] "aa" TxState.SUCCESS TxState.FAILURE
    none none none none none none none none none (Or.inl (by decide))

/-- An upsert whose update carries id `k` leaves the merged record readable
under `k`. -/
theorem upsertTxs_lookup (s : TxStore) (u : Tx) (k : String) (hid : u.id = some k) :
    getTxById (upsertTxs s u) (some k)
      = some (upsertMerge (getTxById s (some k)) u) := by
  have hm : (upsertMerge (getTxById s (some k)) u).id = some k := by
    simp [upsertMerge, hid]
  have h' := getTxById_storeTransaction_self s (upsertMerge (getTxById s (some k)) u)
  rw [hm] at h'
  show getTxById (storeTransaction s (upsertMerge (getTxById s u.id) u)) (some k) = _
  rw [hid]
  exact h'

/-- C2 is refuted: a stored terminal status (SUCCESS) is replaced by a
higher-ranked incoming terminal status (INVALID): the merge keeps the stored
status only when it is strictly above the incoming one. -/
theorem c2_counterexample :
    (getTxById [(some "aa",
        ⟨some "aa", some TxState.SUCCESS, none, none, none, none, none, none, none, none, none⟩)]
      (some "aa")).bind Tx.status = some TxState.SUCCESS ∧
    (getTxById (upsertTxs
        [(some "aa",
          ⟨some "aa", some TxState.SUCCESS, none, none, none, none, none, none, none, none, none⟩)]
        ⟨some "aa", some TxState.INVALID, none, none, none, none, none, none, none, none, none⟩)
      (some "aa")).bind Tx.status = some TxState.INVALID := by
  decide

/-- C2 (amended): once the stored status is terminal, merging any update with
a defined status yields the maximum of the two ranks — the status stays
terminal and never regresses below the stored rank, but it is not literally
unchanged: a higher-ranked incoming terminal status replaces it. -/
theorem c2_terminal_status_max (s : TxStore) (k : String) (t u : Tx) (b c : Nat)
    (hstored : getTxById s (some k) = some t)
    (ht : t.status = some b) (hb : TxState.PROCESSED < b)
    (hid : u.id = some k) (hus : u.status = some c) :
    getTxById (upsertTxs s u) (some k) = some (upsertMerge (some t) u) ∧
    (upsertMerge (some t) u).status = some (max b c) := by
  constructor
  · rw [upsertTxs_lookup s u k hid, hstored]
  · show mergedStatus ((some t).bind Tx.status) u.status = some (max b c)
    have hb6 : (6 : Nat) < b := by simpa [TxState.PROCESSED] using hb
    have hts : (some t).bind Tx.status = some b := by simp [ht]
    rw [hts, hus]
    simp only [mergedStatus, jsGT_some_some, decide_eq_true_eq]
    split_ifs with h' <;> (congr 1; omega)

/-- Witness for the amended C2: a stored SUCCESS merged with an incoming
MEMPOOL update keeps SUCCESS (= max of the two ranks). -/
theorem c2_terminal_status_max_witness :
    getTxById (upsertTxs
        [(some "aa",
          ⟨some "aa", some TxState.SUCCESS, none, none, none, none, none, none, none, none, none⟩)]
        ⟨some "aa", some TxState.MEMPOOL, none, none, none, none, none, none, none, none, none⟩)
      (some "aa")
      = some (upsertMerge
          (some ⟨some "aa", some TxState.SUCCESS, none, none, none, none, none, none, none, none, none⟩)
          ⟨some "aa", some TxState.MEMPOOL, none, none, none, none, none, none, none, none, none⟩) ∧
    (upsertMerge
        (some ⟨some "aa", some TxState.SUCCESS, none, none, none, none, none, none, none, none, none⟩)
        ⟨some "aa", some TxState.MEMPOOL, none, none, none, none, none, none, none, none, none⟩).status
      = some (max TxState.SUCCESS TxState.MEMPOOL) :=
  c2_terminal_status_max
    [(some "aa",
      ⟨some "aa", some TxState.SUCCESS, none, none, none, none, none, none, none, none, none⟩)]
    "aa"
    ⟨some "aa", some TxState.SUCCESS, none, none, none, none, none, none, none, none, none⟩
    ⟨some "aa", some TxState.MEMPOOL, none, none, none, none, none, none, none, none, none⟩
    TxState.SUCCESS TxState.MEMPOOL (by decide) rfl (by decide) rfl rfl

/-- C3 is refuted: a stored PROCESSED status is not protected by the merge
(only statuses strictly above PROCESSED are), so an incoming pending
(MEMPOOL) update drags the stored record back to pending. -/
theorem c3_counterexample :
    (getTxById [(some "aa",
        ⟨some "aa", some TxState.PROCESSED, none, none, none, none, none, none, none, none, none⟩)]
      (some "aa")).bind Tx.status = some TxState.PROCESSED ∧
    (getTxById (upsertTxs
        [(some "aa",
          ⟨some "aa", some TxState.PROCESSED, none, none, none, none, none, none, none, none, none⟩)]
        ⟨some "aa", some TxState.MEMPOOL, none, none, none, none, none, none, none, none, none⟩)
      (some "aa")).bind Tx.status = some TxState.MEMPOOL := by
  decide

/-- C3 (amended): merging an incoming pending (MEMPOOL) update over a stored
PROCESSED record yields status MEMPOOL — the incoming status wins because the
guard protects only statuses strictly above PROCESSED. -/
theorem c3_processed_regresses (s : TxStore) (k : String) (t u : Tx)
    (hstored : getTxById s (some k) = some t)
    (ht : t.status = some TxState.PROCESSED)
    (hid : u.id = some k) (hus : u.status = some TxState.MEMPOOL) :
    getTxById (upsertTxs s u) (some k) = some (upsertMerge (some t) u) ∧
    (upsertMerge (some t) u).status = some TxState.MEMPOOL := by
  constructor
  · rw [upsertTxs_lookup s u k hid, hstored]
  · show mergedStatus ((some t).bind Tx.status) u.status = some TxState.MEMPOOL
    have hts : (some t).bind Tx.status = some TxState.PROCESSED := by simp [ht]
    rw [hts, hus]
    simp [mergedStatus, TxState.PROCESSED, TxState.MEMPOOL]

/-- Witness for the amended C3, evaluated on a one-record ledger. -/
theorem c3_processed_regresses_witness :
    getTxById (upsertTxs
        [(some "bb",
          ⟨some "bb", some TxState.PROCESSED, none, none, none, none, none, none, none, none, none⟩)]
        ⟨some "bb", some TxState.MEMPOOL, none, none, none, none, none, none, none, none, none⟩)
      (some "bb")
      = some (upsertMerge
          (some ⟨some "bb", some TxState.PROCESSED, none, none, none, none, none, none, none, none, none⟩)
          ⟨some "bb", some TxState.MEMPOOL, none, none, none, none, none, none, none, none, none⟩) ∧
    (upsertMerge
        (some ⟨some "bb", some TxState.PROCESSED, none, none, none, none, none, none, none, none, none⟩)
        ⟨some "bb", some TxState.MEMPOOL, none, none, none, none, none, none, none, none, none⟩).status
      = some TxState.MEMPOOL :=
  c3_processed_regresses
    [(some "bb",
      ⟨some "bb", some TxState.PROCESSED, none, none, none, none, none, none, none, none, none⟩)]
    "bb"
    ⟨some "bb", some TxState.PROCESSED, none, none, none, none, none, none, none, none, none⟩
    ⟨some "bb", some TxState.MEMPOOL, none, none, none, none, none, none, none, none, none⟩
    (by decide) rfl rfl rfl

set_option maxRecDepth 100000 in
/-- C4: with 250 total results and page size 100, the walk visits exactly the
page offsets 0, 100, 200 (retrying offset 100 twice before its 3rd-attempt
success, well inside the budget of 5 retries) and delivers all 250 records,
in order, to the page handler. -/
theorem c4_pagination_walk :
    retrieveHistoricTxData 100 c4Env 10 0 0 =
      some ⟨[(0, 0), (100, 0), (100, 1), (100, 2), (200, 0)], List.range' 0 250⟩ ∧
    (retrieveHistoricTxData 100 c4Env 10 0 0).map
        (fun tr => (tr.requests.map Prod.fst).dedup) = some [0, 100, 200] ∧
    (retrieveHistoricTxData 100 c4Env 10 0 0).map
        (fun tr => tr.delivered.length) = some 250 := by
  refine ⟨by decide, by decide, by decide⟩

/-- One unfolding of the fueled pagination walk. -/
theorem retrieve_step (batch : Nat) (env : Nat → Nat → MeshResult)
    (fuel offset retries : Nat) :
    retrieveHistoricTxData batch env (fuel + 1) offset retries =
      (if (env offset retries).error = true ∧ retries < 5 then
        (retrieveHistoricTxData batch env fuel offset (retries + 1)).map
          fun tr => ⟨(offset, retries) :: tr.requests, tr.delivered⟩
      else if offset + batch < (env offset retries).totalResults then
        (retrieveHistoricTxData batch env fuel (offset + batch) 0).map
          fun tr => ⟨(offset, retries) :: tr.requests, (env offset retries).data ++ tr.delivered⟩
      else some ⟨[(offset, retries)], (env offset retries).data⟩) := rfl

/-- A walk that reaches an offset where every attempt up to the budget fails
issues requests only at that offset and stops; the fuel-shape is
`n` successful pages followed by the 6 failing attempts. -/
theorem retrieve_chain (batch : Nat) (env : Nat → Nat → MeshResult) (tot : Nat) :
    ∀ (n : Nat) (start : Nat) (pages : Nat → List Nat),
    (∀ j, j < n → env (start + j * batch) 0 = ⟨pages j, tot, false⟩) →
    (∀ j, j < n → start + j * batch + batch < tot) →
    (∀ k, k ≤ 5 → env (start + n * batch) k = ⟨[], 0, true⟩) →
    retrieveHistoricTxData batch env (n + 6) start 0 =
      some ⟨(List.range n).map (fun j => (start + j * batch, 0)) ++
              [(start + n * batch, 0), (start + n * batch, 1), (start + n * batch, 2),
               (start + n * batch, 3), (start + n * batch, 4), (start + n * batch, 5)],
            ((List.range n).map pages).flatten⟩ := by
  intro n
  induction n with
  | zero =>
      intro start pages _ _ hfail
      simp only [Nat.zero_mul, Nat.add_zero] at hfail
      have h0 := hfail 0 (by omega)
      have h1 := hfail 1 (by omega)
      have h2 := hfail 2 (by omega)
      have h3 := hfail 3 (by omega)
      have h4 := hfail 4 (by omega)
      have h5 := hfail 5 (by omega)
      simp [retrieveHistoricTxData, h0, h1, h2, h3, h4, h5]
  | succ m ih =>
      intro start pages hsucc hcont hfail
      have hs0 : env start 0 = ⟨pages 0, tot, false⟩ := by
        simpa using hsucc 0 (by omega)
      have hc0 : start + batch < tot := by
        simpa using hcont 0 (by omega)
      have hrec := ih (start + batch) (fun j => pages (j + 1))
        (fun j hj => by
          have h := hsucc (j + 1) (by omega)
          have harith : start + (j + 1) * batch = start + batch + j * batch := by ring
          rwa [harith] at h)
        (fun j hj => by
          have h := hcont (j + 1) (by omega)
          have harith : start + (j + 1) * batch = start + batch + j * batch := by ring
          rwa [harith] at h)
        (fun k hk => by
          have h := hfail k hk
          have harith : start + (m + 1) * batch = start + batch + m * batch := by ring
          rwa [harith] at h)
      have hfuel : m + 1 + 6 = (m + 6) + 1 := by omega
      rw [hfuel, retrieve_step, hs0]
      rw [if_neg (by simp), if_pos (by simpa using hc0), hrec]
      simp only [Option.map_some', Option.some.injEq, FetchTrace.mk.injEq]
      have harith : start + (m + 1) * batch = start + batch + m * batch := by ring
      constructor
      · rw [List.range_succ_eq_map, List.map_cons, List.map_map]
        simp only [Nat.zero_mul, Nat.add_zero]
        rw [harith, List.cons_append]
        congr 1
        congr 1
        apply List.map_congr_left
        intro j _
        have hj : start + (j + 1) * batch = start + batch + j * batch := by
          ring
        simp only [Function.comp_apply, Nat.succ_eq_add_one, hj]
      · simp only [List.range_succ_eq_map, List.map_cons, List.map_map,
          List.flatten_cons]
        congr 1

/-- C5: when the walk reaches an offset whose query fails on every attempt up
to the retry budget, it issues the 6 attempts there and no request at any
later offset, and the final trace still contains every record delivered from
the earlier offsets, in order — nothing is rolled back or discarded. -/
theorem c5_retry_exhaustion_stops_walk (batch : Nat) (env : Nat → Nat → MeshResult)
    (tot : Nat) (pages : Nat → List Nat) (n : Nat)
    (hsucc : ∀ j, j < n → env (j * batch) 0 = ⟨pages j, tot, false⟩)
    (hcont : ∀ j, j < n → j * batch + batch < tot)
    (hfail : ∀ k, k ≤ 5 → env (n * batch) k = ⟨[], 0, true⟩) :
    retrieveHistoricTxData batch env (n + 6) 0 0 =
      some ⟨(List.range n).map (fun j => (j * batch, 0)) ++
              [(n * batch, 0), (n * batch, 1), (n * batch, 2),
               (n * batch, 3), (n * batch, 4), (n * batch, 5)],
            ((List.range n).map pages).flatten⟩ := by
  have h := retrieve_chain batch env tot n 0 pages
    (fun j hj => by simpa using hsucc j hj)
    (fun j hj => by simpa using hcont j hj)
    (fun k hk => by simpa using hfail k hk)
  simpa using h

/-- Witness for C5: one successful page at offset 0 of 100 records, then a
permanently failing offset 100: the walk retries offset 100 six times, stops,
and the 100 records from offset 0 stay delivered. -/
theorem c5_retry_exhaustion_stops_walk_witness :
    retrieveHistoricTxData 100 c5Env 7 0 0 =
      some ⟨[(0, 0), (100, 0), (100, 1), (100, 2), (100, 3), (100, 4), (100, 5)],
            List.range' 0 100⟩ := by
  have h := c5_retry_exhaustion_stops_walk 100 c5Env 250 (fun _ => List.range' 0 100) 1
    (by intro j hj; interval_cases j; rfl)
    (by intro j hj; interval_cases j; norm_num)
    (by intro k hk; rfl)
  simpa using h

theorem upsertTransaction_removed (publicKey : String) (tx : Tx) :
    upsertTransaction none publicKey tx = (none, []) := rfl

theorem handleNewTx_removed (publicKey : String) (item : TxStreamItem) :
    handleNewTx none publicKey item = (none, []) := by
  unfold handleNewTx
  repeat' split
  all_goals simp [upsertTransaction]

theorem upsertTransactionFromMesh_removed (address : String) (item : Option MeshTxMsg) :
    upsertTransactionFromMesh none address item = (none, []) := by
  unfold upsertTransactionFromMesh
  repeat' split
  all_goals simp [upsertTransaction]

theorem handleWatchTx_removed (address : String) (item : WatchTxItem) :
    handleWatchTx none address item = (none, []) := by
  unfold handleWatchTx
  repeat' split
  all_goals simp [upsertTransaction]

/-- C6: once `setAccounts` has removed an account (its store entry is gone),
no post-removal callback — live tx-state stream items (whose subscription
`unsubscribeAllStreams` does not cancel), mesh or watch stream items, the
pending debounced resubscription, in-flight backfill results, reward items, or
`.then` continuations of store promises — pushes any notification for that
account to the UI: every path either checks the store and discards its input
or throws a `TypeError` before reaching the send. -/
theorem c6_no_notifications_after_removal (publicKey : String) (e : TMEvent) :
    emittedNotifs (handleEvent none publicKey e) = [] := by
  cases e with
  | txStreamItem item => simp [handleEvent, handleNewTx_removed, emittedNotifs]
  | meshTxItem item => simp [handleEvent, upsertTransactionFromMesh_removed, emittedNotifs]
  | watchTxItem item => simp [handleEvent, handleWatchTx_removed, emittedNotifs]
  | debouncedResubscribe => rfl
  | storeTxContinuation => rfl
  | accountDataItem data => rfl
  | rewardItem reward =>
      rcases reward with _ | r
      · rfl
      · by_cases h : hasRequiredRewardFields r <;>
          simp [handleEvent, addReward, h, storeReward, emittedNotifs]
  | storeRewardContinuation => rfl

/-- C7: when the submission response carries no `txstate.id` (whatever of the
optional links is missing), both publish paths return a non-null error and a
null optimistic record, and the account's transaction store is untouched. -/
theorem c7_missing_txid_submission (response : SubmitResponse)
    (h : txstateIdId response = none) (currentLayer fee : Nat)
    (address templateAddress : String) (note : Option String)
    (store : Option AccountStore) :
    (publishSelfSpawn response currentLayer fee address templateAddress store).1.error ≠ none ∧
    (publishSelfSpawn response currentLayer fee address templateAddress store).1.tx = none ∧
    (publishSelfSpawn response currentLayer fee address templateAddress store).2 = (store, []) ∧
    (publishSpendTx response currentLayer fee address templateAddress note store).1.error ≠ none ∧
    (publishSpendTx response currentLayer fee address templateAddress note store).1.tx = none ∧
    (publishSpendTx response currentLayer fee address templateAddress note store).2 = (store, []) := by
  obtain ⟨err, txst⟩ := response
  cases err <;>
    simp [publishSelfSpawn, publishSpendTx, publishError, h, getTxResponseError]

/-- Witness for C7: a response whose `txstate.id.id` is absent, against a
concrete (present) account store. -/
theorem c7_missing_txid_submission_witness :
    (publishSelfSpawn ⟨none, some ⟨some ⟨none⟩, some 4⟩⟩ 11 2 "addr" "tpl"
        (some ⟨[], [], none⟩)).1.error ≠ none ∧
    (publishSelfSpawn ⟨none, some ⟨some ⟨none⟩, some 4⟩⟩ 11 2 "addr" "tpl"
        (some ⟨[], [], none⟩)).1.tx = none ∧
    (publishSelfSpawn ⟨none, some ⟨some ⟨none⟩, some 4⟩⟩ 11 2 "addr" "tpl"
        (some ⟨[], [], none⟩)).2 = (some ⟨[], [], none⟩, []) ∧
    (publishSpendTx ⟨none, some ⟨some ⟨none⟩, some 4⟩⟩ 11 2 "addr" "tpl" (some "memo")
        (some ⟨[], [], none⟩)).1.error ≠ none ∧
    (publishSpendTx ⟨none, some ⟨some ⟨none⟩, some 4⟩⟩ 11 2 "addr" "tpl" (some "memo")
        (some ⟨[], [], none⟩)).1.tx = none ∧
    (publishSpendTx ⟨none, some ⟨some ⟨none⟩, some 4⟩⟩ 11 2 "addr" "tpl" (some "memo")
        (some ⟨[], [], none⟩)).2 = (some ⟨[], [], none⟩, []) :=
  c7_missing_txid_submission ⟨none, some ⟨some ⟨none⟩, some 4⟩⟩ rfl 11 2
    "addr" "tpl" (some "memo") (some ⟨[], [], none⟩)

/-- C8 is refuted: the reward-storing path performs no store-existence check —
on a removed store it throws a `TypeError` (modelled as `Except.error`)
instead of silently discarding the reward. -/
theorem c8_counterexample :
    addReward none "acc" (some ⟨some 1, some 2, some 3, some "cb"⟩)
      = Except.error JsError.typeError := by
  rfl

/-- C8 (amended): `upsertTransaction` and `updateAccountData` check that the
account's store still exists and silently discard their input when it does
not (no mutation, no notification); the reward path does not check and throws
a `TypeError` on a missing store — still before any mutation or notification,
and its callers catch the throw. -/
theorem c8_guarded_mutation_amended :
    (∀ (publicKey : String) (tx : Tx),
        upsertTransaction none publicKey tx = (none, [])) ∧
    (∀ (address : String) (data : AccountMsg),
        updateAccountData none address data = (none, [])) ∧
    (∀ (publicKey : String) (r : RewardMsg), hasRequiredRewardFields r = true →
        addReward none publicKey (some r) = Except.error JsError.typeError) := by
  refine ⟨fun _ _ => rfl, fun _ _ => rfl, fun publicKey r h => ?_⟩
  simp [addReward, h, storeReward]

/-- Witness for the amended C8: a well-formed reward against a removed store
throws. -/
theorem c8_guarded_mutation_amended_witness :
    addReward none "acc2" (some ⟨some 7, some 8, some 9, some "cb2"⟩)
      = Except.error JsError.typeError :=
  c8_guarded_mutation_amended.2.2 "acc2" ⟨some 7, some 8, some 9, some "cb2"⟩
    (by decide)

/-- C9: `updateTxNote` on an id with no stored record spreads `undefined`
under the note, so the record pushed through `upsertTransaction` merges the
note onto an empty base and the stored result has every field absent except
the note (its id included); it takes the same merge/store path as network
updates. -/
theorem c9_note_merge_on_missing_record (s : AccountStore)
    (publicKey txId note : String)
    (h1 : getTxById s.txs (some txId) = none)
    (h2 : getTxById s.txs none = none) :
    updateTxNote (some s) publicKey txId note =
      Except.ok
        (some { s with txs := storeTransaction s.txs { emptyTx with note := some note } },
         [Notif.txsUpdated publicKey]) := by
  simp only [updateTxNote, h1]
  have e1 : upsertTxs s.txs { emptyTx with note := some note }
      = storeTransaction s.txs
          (upsertMerge (getTxById s.txs none) { emptyTx with note := some note }) := rfl
  have hup : upsertTxs s.txs { emptyTx with note := some note }
      = storeTransaction s.txs { emptyTx with note := some note } := by
    rw [e1, h2, upsertMerge_none]
  simp [upsertTransaction, hup]

/-- Witness for C9: a note update for an unknown id on an empty store. -/
theorem c9_note_merge_on_missing_record_witness :
    updateTxNote (some ⟨[], [], none⟩) "pk" "deadbeef" "hello" =
      Except.ok
        (some ⟨storeTransaction [] { emptyTx with note := some "hello" }, [], none⟩,
         [Notif.txsUpdated "pk"]) :=
  c9_note_merge_on_missing_record ⟨[], [], none⟩ "pk" "deadbeef" "hello" rfl rfl

/-- C10: evaluating the keychain update at a keychain `[a, b]` and a new
keypair duplicating `b` (so `idx = 1`): the source's
`slice(0, Math.max(0, idx - 1))` boundary drops the entry `a` at index
`idx - 1` as well, leaving only the new keypair — the claimed
"remove exactly the matching entry" behaviour would give `[a, b']`. -/
theorem c10_keychain_drops_previous_entry :
    addAccountKeychain [⟨"a", "sa"⟩, ⟨"b", "sb"⟩] ⟨"b", "sb2"⟩ = [⟨"b", "sb2"⟩] := by
  rfl

end Smapp
